import Mathlib

/-!
Verification development for the fever-tracker timeline chart builder.

The embedding models `src/charts.py` (`build_temperature_figure`) and its
duplicate `src/app.py` (`_build_temperature_figure`), plus the constant
`TEMP_CRITICAL` from `src/constants.py`.

Modelling conventions:
* Timestamps are integers counting seconds since an arbitrary epoch
  (`pd.Timestamp` arithmetic on naive local minute-precision data).
  The lane window test `(t - last).total_seconds() / 60.0 >= 180` is,
  for integer-second timestamps, equivalent to `t - last >= 180 * 60`.
* Temperatures and chart coordinates are rationals (`ℚ`); the decimal
  constants 39.8, 0.2, 0.35, 0.8, 0.5 of the source are exact decimals.
* The wall clock is a stream `clock : Nat → Int`: the k-th evaluation of
  `pd.Timestamp.now()` during a build returns `clock k`.  The source calls
  `pd.Timestamp.now()` once per iteration of the per-medication loop
  (charts.py line 152), so the event at sorted position k reads `clock k`.
* `meds.sort_values("given_at")` sorts ascending by `given_at`; pandas'
  default kind is quicksort, which gives no stability guarantee, so the
  relative order of equal timestamps is implementation-defined.  The model
  uses an insertion sort (one definite order sorted by `given_at`); no
  theorem below depends on the order chosen among equal timestamps.
-/

namespace FeverTracker

/-- Critical temperature threshold in °C (`src/constants.py`). -/
def TEMP_CRITICAL : ℚ := 39.8

/-- A row of the measurements table as consumed by the chart builder. -/
structure TemperatureReading where
  id : Int
  recorded_at : Int
  temperature_c : ℚ
  notes : Option String
deriving Repr, DecidableEq, Inhabited

/-- A row of the medications table as consumed by the chart builder. -/
structure MedicationEvent where
  id : Int
  given_at : Int
  med_name : String
  dose_desc : Option String
  notes : Option String
deriving Repr, DecidableEq, Inhabited

/-! ## Lane assignment (charts.py lines 82–102) -/

/-- `window_minutes = 180` (charts.py line 83). -/
def window_minutes : Int := 180

/-- `max_lanes = 3` (charts.py line 84). -/
def max_lanes : Nat := 3

/-- The per-lane test of charts.py lines 93–96: a lane is available when its
`last_time` is `None` or lies at least `window_minutes` minutes before `t`. -/
def laneOk (t : Int) : Option Int → Bool
  | none => true
  | some last => decide (window_minutes * 60 ≤ t - last)

/-- Index of the first available lane (the `for li in range(max_lanes)` scan
with `break`, charts.py lines 91–98), `none` when every lane is busy. -/
def firstFree (t : Int) : List (Option Int) → Option Nat
  | [] => none
  | l :: ls => if laneOk t l then some 0 else (firstFree t ls).map Nat.succ

/-- One iteration of the assignment loop (charts.py lines 88–102): pick the
first free lane, fall back to `i % max_lanes`, record the event's time in the
chosen lane.  Returns the chosen lane and the updated `lane_last_time`. -/
def assignStep (i : Nat) (t : Int) (lanes : List (Option Int)) :
    Nat × List (Option Int) :=
  let idx := (firstFree t lanes).getD (i % max_lanes)
  (idx, lanes.set idx (some t))

/-- The whole loop, threading the loop counter `i` and `lane_last_time`.
Returns `assigned_lanes` and the final `lane_last_time`. -/
def runLanes (i : Nat) (lanes : List (Option Int)) :
    List Int → List Nat × List (Option Int)
  | [] => ([], lanes)
  | t :: ts =>
      let p := assignStep i t lanes
      let q := runLanes (i + 1) p.2 ts
      (p.1 :: q.1, q.2)

/-- `lane_last_time = [None] * max_lanes` (charts.py line 86). -/
def initLanes : List (Option Int) := List.replicate max_lanes none

/-- `assigned_lanes` for a list of timestamps already sorted by the caller. -/
def assignLanes (ts : List Int) : List Nat := (runLanes 0 initLanes ts).1

/-- The `lane_last_time` state just before the event at position `k` of the
sorted order is processed. -/
def lanesBefore (ts : List Int) (k : Nat) : List (Option Int) :=
  (runLanes 0 initLanes (ts.take k)).2

/-! ## Hour gridlines (charts.py lines 33–74)

`pd.Timestamp.floor("H")` rounds an epoch-based timestamp down to the start
of its hour and `.ceil("H")` up to the next hour start (identity on exact
hours); on integer seconds these are floor/ceil division by 3600. -/

/-- `pd.Timestamp(t).floor("H")`. -/
def floorHour (t : Int) : Int := 3600 * (t / 3600)

/-- `pd.Timestamp(t).ceil("H")` (equals `-floorHour (-t)`). -/
def ceilHour (t : Int) : Int := -(3600 * ((-t) / 3600))

/-- The `while cur <= end` loop of charts.py lines 44–74, collecting the
gridline positions emitted (one per iteration, stepping by one hour). -/
def hourLoop (cur endT : Int) : List Int :=
  if h : cur ≤ endT then cur :: hourLoop (cur + 3600) endT else []
termination_by (endT + 3600 - cur).toNat
decreasing_by omega

/-- Gridline positions as a function of `combined_times` (charts.py lines
34–45): skip everything when the union is empty, else run the hourly loop
from `floor(tmin)` to `ceil(tmax)`. -/
def gridOfCombined : List Int → List Int
  | [] => []
  | t :: ts => hourLoop (floorHour (ts.foldl min t)) (ceilHour (ts.foldl max t))

/-- Gridline positions from the two input series; `tmin`/`tmax` are the
min/max over the union of both series (the source takes min/max of the
per-series minima/maxima of the nonempty series, which is the same). -/
def gridTimes (recTimes medTimes : List Int) : List Int :=
  gridOfCombined (recTimes ++ medTimes)

/-! ## Sorting the medication events (charts.py line 80)

`meds.sort_values("given_at")` sorts ascending by `given_at`.  Pandas'
default sort kind is quicksort, which is documented as not stable, so the
source fixes no particular order among equal timestamps; the model uses an
insertion sort, which produces one definite ascending order. -/

def insertMed (m : MedicationEvent) :
    List MedicationEvent → List MedicationEvent
  | [] => [m]
  | x :: xs =>
      if m.given_at ≤ x.given_at then m :: x :: xs else x :: insertMed m xs

def sortMeds : List MedicationEvent → List MedicationEvent
  | [] => []
  | m :: ms => insertMed m (sortMeds ms)

/-! ## Label and hover-text formatting (charts.py lines 58–73, 112–114,
151–168) -/

/-- Two-digit zero padding, as in `strftime` fields and `f"{mins:02d}"`. -/
def pad2 (n : Int) : String :=
  if n < 10 then "0" ++ toString n else toString n

/-- `pd.Timestamp(t).hour` for an epoch-seconds timestamp. -/
def hourOfDay (t : Int) : Int := (t % 86400) / 3600

/-- Minute within the hour of an epoch-seconds timestamp. -/
def minuteOfHour (t : Int) : Int := (t % 3600) / 60

/-- `cur.strftime("%H:%M")` (charts.py line 60). -/
def hhmm (t : Int) : String := pad2 (hourOfDay t) ++ ":" ++ pad2 (minuteOfHour t)

/-- Gridline label text: bold-wrapped every 6 hours (charts.py lines 59–62). -/
def gridLabelText (t : Int) : String :=
  if hourOfDay t % 6 = 0 then "<b>" ++ hhmm t ++ "</b>" else hhmm t

/-- Gridline label font size: 12 on 6-hour marks, else 9 (line 70). -/
def gridLabelSize (t : Int) : Nat := if hourOfDay t % 6 = 0 then 12 else 9

/-- Medication label: `med_name`, plus ` (dose_desc)` when `dose_desc` is a
non-empty string (charts.py lines 112–114). -/
def medLabel (m : MedicationEvent) : String :=
  match m.dose_desc with
  | some d => if d = "" then m.med_name else m.med_name ++ " (" ++ d ++ ")"
  | none => m.med_name

/-- The relative-time hover string computed against the wall-clock reading
`now` (charts.py lines 151–168). -/
def agoString (now t : Int) : String :=
  let deltaSec := now - t
  if deltaSec < 0 then "in future"
  else
    let total_minutes := deltaSec / 60
    let hrs := total_minutes / 60
    let mins := total_minutes % 60
    if 0 < hrs then
      if 0 < mins then toString hrs ++ "h" ++ pad2 mins ++ "mins ago"
      else toString hrs ++ "h ago"
    else if 0 < mins then toString mins ++ "mins ago"
    else "just now"

/-! ## The chart specification produced by the builder -/

/-- The temperature line+marker trace (charts.py lines 22–31). -/
structure TempTrace where
  xs : List Int
  ys : List ℚ
  mode : String
  name : String
  lineColor : String
  markerSizes : List Nat
  markerColors : List String
deriving Repr, DecidableEq

/-- A vertical line shape (hourly gridline or medication guide). -/
structure VLine where
  x : Int
  y0 : ℚ
  y1 : ℚ
  yref : String
  color : String
  width : ℚ
  dash : String
deriving Repr, DecidableEq

/-- A positioned text item (gridline label, medication label, or the
threshold label). -/
structure TextAnn where
  xref : String
  x : Option Int
  yref : String
  y : ℚ
  text : String
  fontSize : Nat
  showarrow : Bool
  ay : Int
deriving Repr, DecidableEq

/-- The invisible hover layer for medication markers (charts.py 171–184). -/
structure HoverTrace where
  xs : List Int
  ys : List ℚ
  texts : List String
  customdata : List String
deriving Repr, DecidableEq

/-- The figure as assembled by `build_temperature_figure`.  The source
appends the threshold label to the same annotations array as the gridline
and medication labels, always last; it is modelled as the dedicated field
`thresholdAnn`, the full array being `anns ++ [thresholdAnn]`.  Style
constants that are identical literals in both sources and that no claim
depends on (arrow/border/background colors, margins, legend placement) are
not modelled. -/
structure ChartSpec where
  tempTrace : Option TempTrace
  shapes : List VLine
  anns : List TextAnn
  thresholdAnn : TextAnn
  hover : Option HoverTrace
  hline_y : ℚ
  hline_dash : String
  hline_color : String
  xaxis_title : String
  yaxis_title : String
  height : Int
  yRange : ℚ × ℚ
deriving Repr, DecidableEq

/-- Hourly gridline shape (charts.py lines 47–57). -/
def gridShape (t : Int) : VLine :=
  ⟨t, 0, 1, "paper", "rgba(0,0,0,0.25)", 1, "dot"⟩

/-- Hourly gridline label (charts.py lines 63–73). -/
def gridLabel (t : Int) : TextAnn :=
  ⟨"x", some t, "paper", 0, gridLabelText t, gridLabelSize t, false, 0⟩

/-- The threshold label annotation of charts.py lines 189–201
(`f"{TEMP_CRITICAL:.1f}°C"` = `"39.8°C"`). -/
def thresholdLabel : TextAnn :=
  ⟨"paper", none, "y", TEMP_CRITICAL, "39.8°C", 12, false, 0⟩

/-- The threshold label annotation of app.py lines 272–284: the source file
encodes the degree sign as the two characters `Â°`. -/
def thresholdLabelApp : TextAnn :=
  ⟨"paper", none, "y", TEMP_CRITICAL, "39.8Â°C", 12, false, 0⟩

/-- `build_temperature_figure` of `src/charts.py` (lines 9–217). -/
def build_temperature_figure (measurements : List TemperatureReading)
    (medications : List MedicationEvent) (clock : Nat → Int) (height : Int) :
    ChartSpec :=
  let y_min : ℚ := 36
  let y_max : ℚ := 41
  let tempTrace : Option TempTrace :=
    if measurements.isEmpty then none
    else some
      { xs := measurements.map (·.recorded_at)
        ys := measurements.map (·.temperature_c)
        mode := "lines+markers"
        name := "Temperature (°C)"
        lineColor := "#1976d2"
        markerSizes := measurements.map
          (fun r => if TEMP_CRITICAL ≤ r.temperature_c then 10 else 6)
        markerColors := measurements.map
          (fun r => if TEMP_CRITICAL ≤ r.temperature_c then "#d32f2f"
                    else "#1976d2") }
  let grid := gridTimes (measurements.map (·.recorded_at))
    (medications.map (·.given_at))
  let meds := sortMeds medications
  let lanes := assignLanes (meds.map (·.given_at))
  let pairs := lanes.zip meds
  let medShapes : List VLine := pairs.map (fun p =>
    ⟨p.2.given_at, y_min, y_max + 0.2 + (p.1 : ℚ) * 0.35, "y", "#e53935", 2,
      "dot"⟩)
  let medAnns : List TextAnn := pairs.map (fun p =>
    ⟨"x", some p.2.given_at, "y", y_max + 0.2 + (p.1 : ℚ) * 0.35,
      medLabel p.2, 11, true, -(20 + (p.1 : Int) * 12)⟩)
  let hover : Option HoverTrace :=
    if medications.isEmpty then none
    else some
      { xs := meds.map (·.given_at)
        ys := pairs.map (fun p => y_max + 0.2 + (p.1 : ℚ) * 0.35)
        texts := meds.map medLabel
        customdata := meds.enum.map
          (fun e => agoString (clock e.1) e.2.given_at) }
  let headroom : ℚ :=
    if medications.isEmpty then 0.8
    else 0.8 + 0.35 * ((lanes.foldl max 0 : Nat) : ℚ)
  { tempTrace := tempTrace
    shapes := grid.map gridShape ++ medShapes
    anns := grid.map gridLabel ++ medAnns
    thresholdAnn := thresholdLabel
    hover := hover
    hline_y := TEMP_CRITICAL
    hline_dash := "dash"
    hline_color := "#d32f2f"
    xaxis_title := "Time"
    yaxis_title := "Temperature (°C)"
    height := height
    yRange := (y_min - 0.5, y_max + headroom) }

/-- `_build_temperature_figure` of `src/app.py` (lines 95–300): the same
computation, with the file's own `TEMP_CRITICAL = 39.8`; its string literals
for the trace name, the y-axis title and the threshold label encode the
degree sign as the two characters `Â°`. -/
def app_build_temperature_figure (measurements : List TemperatureReading)
    (medications : List MedicationEvent) (clock : Nat → Int) (height : Int) :
    ChartSpec :=
  let y_min : ℚ := 36
  let y_max : ℚ := 41
  let tempTrace : Option TempTrace :=
    if measurements.isEmpty then none
    else some
      { xs := measurements.map (·.recorded_at)
        ys := measurements.map (·.temperature_c)
        mode := "lines+markers"
        name := "Temperature (Â°C)"
        lineColor := "#1976d2"
        markerSizes := measurements.map
          (fun r => if TEMP_CRITICAL ≤ r.temperature_c then 10 else 6)
        markerColors := measurements.map
          (fun r => if TEMP_CRITICAL ≤ r.temperature_c then "#d32f2f"
                    else "#1976d2") }
  let grid := gridTimes (measurements.map (·.recorded_at))
    (medications.map (·.given_at))
  let meds := sortMeds medications
  let lanes := assignLanes (meds.map (·.given_at))
  let pairs := lanes.zip meds
  let medShapes : List VLine := pairs.map (fun p =>
    ⟨p.2.given_at, y_min, y_max + 0.2 + (p.1 : ℚ) * 0.35, "y", "#e53935", 2,
      "dot"⟩)
  let medAnns : List TextAnn := pairs.map (fun p =>
    ⟨"x", some p.2.given_at, "y", y_max + 0.2 + (p.1 : ℚ) * 0.35,
      medLabel p.2, 11, true, -(20 + (p.1 : Int) * 12)⟩)
  let hover : Option HoverTrace :=
    if medications.isEmpty then none
    else some
      { xs := meds.map (·.given_at)
        ys := pairs.map (fun p => y_max + 0.2 + (p.1 : ℚ) * 0.35)
        texts := meds.map medLabel
        customdata := meds.enum.map
          (fun e => agoString (clock e.1) e.2.given_at) }
  let headroom : ℚ :=
    if medications.isEmpty then 0.8
    else 0.8 + 0.35 * ((lanes.foldl max 0 : Nat) : ℚ)
  { tempTrace := tempTrace
    shapes := grid.map gridShape ++ medShapes
    anns := grid.map gridLabel ++ medAnns
    thresholdAnn := thresholdLabelApp
    hover := hover
    hline_y := TEMP_CRITICAL
    hline_dash := "dash"
    hline_color := "#d32f2f"
    xaxis_title := "Time"
    yaxis_title := "Temperature (Â°C)"
    height := height
    yRange := (y_min - 0.5, y_max + headroom) }

/-! ## Derived quantities used in claim statements -/

/-- The lanes assigned to the medication events, in sorted order. -/
def medLanes (medications : List MedicationEvent) : List Nat :=
  assignLanes ((sortMeds medications).map (·.given_at))

/-- `max_lane_used` as computed by the per-event loop (running maximum,
starting from 0; charts.py lines 105, 130). -/
def max_lane_used (medications : List MedicationEvent) : Nat :=
  (medLanes medications).foldl max 0

/-- The annotation headroom added above `y_max` when medications are present:
`0.8 + 0.35 * max_lane_used` (charts.py lines 212–215). -/
def headroomOf (maxLane : Nat) : ℚ := 0.8 + 0.35 * (maxLane : ℚ)

/-- Two medication events at the same instant, with a clock that advances
two hours between its first and second read. -/
def medsPairEx : List MedicationEvent :=
  [⟨1, 0, "Paracetamol", none, none⟩, ⟨2, 0, "Ibuprofen", none, none⟩]

/-- A wall clock advancing 2 hours between successive reads. -/
def clkAdv : Nat → Int := fun k => 7200 * (k : Int)

/-! ## Raw rows and timestamp parsing (C9)

The builder receives dataframes with string timestamp columns and converts
them with `pd.to_datetime` (charts.py lines 17, 36, 38, 79), which, with its
default `errors="raise"`, raises a parser error naming the offending value.
The repository defines no `MalformedTimestampError` (or any error type of its
own), and the raised error does not carry the record id. -/

structure RawMeasurement where
  id : Int
  recorded_at : String
  temperature_c : ℚ
  notes : Option String
deriving Repr, DecidableEq

structure RawMedication where
  id : Int
  given_at : String
  med_name : String
  dose_desc : Option String
  notes : Option String
deriving Repr, DecidableEq

/-- The failure surfaced when `pd.to_datetime` cannot parse a value: the
parser error carries the offending raw string (in its message) only. -/
inductive BuildError where
  | parseError (raw : String)
deriving Repr, DecidableEq

/-- `pd.to_datetime` over a whole column, parameterised by the timestamp
grammar `parse`: all timestamps, or the first failure. -/
def parseColumn (parse : String → Option Int) :
    List String → Except BuildError (List Int)
  | [] => .ok []
  | s :: ss =>
      match parse s with
      | none => .error (.parseError s)
      | some t =>
          match parseColumn parse ss with
          | .error e => .error e
          | .ok ts => .ok (t :: ts)

/-- The builder on raw rows: parse the `recorded_at` column, then the
`given_at` column, then build on the parsed rows. -/
def build_raw (parse : String → Option Int) (rms : List RawMeasurement)
    (rmeds : List RawMedication) (clock : Nat → Int) (height : Int) :
    Except BuildError ChartSpec :=
  match parseColumn parse (rms.map (·.recorded_at)) with
  | .error e => .error e
  | .ok mts =>
      match parseColumn parse (rmeds.map (·.given_at)) with
      | .error e => .error e
      | .ok gts =>
          .ok (build_temperature_figure
            ((rms.zip mts).map (fun p =>
              ⟨p.1.id, p.2, p.1.temperature_c, p.1.notes⟩))
            ((rmeds.zip gts).map (fun p =>
              ⟨p.1.id, p.2, p.1.med_name, p.1.dose_desc, p.1.notes⟩))
            clock height)

example : assignLanes [0, 60, 120, 180] = [0, 1, 2, 0] := by decide

example : assignLanes [0, 10800, 21600] = [0, 0, 0] := by decide

example : assignLanes [0, 600, 12000] = [0, 1, 0] := by decide

/-! ### Basic lemmas about the lane loop -/

theorem runLanes_fst_length (ts : List Int) :
    ∀ i lanes, ((runLanes i lanes ts).1).length = ts.length := by
  induction ts with
  | nil => intro i lanes; rfl
  | cons t ts ih => intro i lanes; simp [runLanes, ih]

theorem runLanes_snd_length (ts : List Int) :
    ∀ i lanes, ((runLanes i lanes ts).2).length = lanes.length := by
  induction ts with
  | nil => intro i lanes; rfl
  | cons t ts ih =>
      intro i lanes
      simp [runLanes, ih, assignStep]

theorem firstFree_lt_length {t : Int} :
    ∀ {lanes : List (Option Int)} {m : Nat},
      firstFree t lanes = some m → m < lanes.length := by
  intro lanes
  induction lanes with
  | nil => intro m h; simp [firstFree] at h
  | cons l ls ih =>
      intro m h
      rw [firstFree] at h
      by_cases hk : laneOk t l
      · rw [if_pos hk] at h
        cases h
        simp
      · rw [if_neg hk] at h
        cases hf : firstFree t ls with
        | none => rw [hf] at h; simp at h
        | some m' =>
            rw [hf] at h
            simp at h
            subst h
            have := ih hf
            simp
            omega

theorem assignStep_fst_lt {i : Nat} {t : Int} {lanes : List (Option Int)}
    (hlen : lanes.length = max_lanes) :
    (assignStep i t lanes).1 < lanes.length := by
  unfold assignStep
  cases hf : firstFree t lanes with
  | none =>
      simp [hf, hlen, max_lanes]
      omega
  | some m => simpa [hf] using firstFree_lt_length hf

/-! ### List helper lemmas (getD on set, append, map) -/

theorem getD_set_self {α : Type} (v : α) :
    ∀ (l : List (Option α)) (n : Nat), n < l.length →
      ((l.set n (some v)).getD n none) = some v := by
  intro l
  induction l with
  | nil => intro n h; simp at h
  | cons a l ih =>
      intro n h
      cases n with
      | zero => rfl
      | succ m =>
          simp only [List.set, List.getD, List.get?]
          have := ih m (by simpa using Nat.lt_of_succ_lt_succ h)
          simpa [List.getD] using this

theorem getD_set_ne {α : Type} (v : α) :
    ∀ (l : List (Option α)) (n m : Nat), n ≠ m →
      ((l.set n (some v)).getD m none) = l.getD m none := by
  intro l
  induction l with
  | nil => intro n m _; simp
  | cons a l ih =>
      intro n m hnm
      cases n with
      | zero =>
          cases m with
          | zero => exact absurd rfl hnm
          | succ m' => rfl
      | succ n' =>
          cases m with
          | zero => rfl
          | succ m' =>
              have h' : n' ≠ m' := by omega
              simpa [List.getD] using ih n' m' h'

theorem getD_lt_length_of_some {α : Type} {u : α} :
    ∀ {l : List (Option α)} {n : Nat}, l.getD n none = some u → n < l.length := by
  intro l
  induction l with
  | nil => intro n h; simp [List.getD] at h
  | cons a l ih =>
      intro n h
      cases n with
      | zero => simp
      | succ m =>
          have : l.getD m none = some u := by simpa [List.getD] using h
          simpa using Nat.succ_lt_succ (ih this)

theorem getD_mem_of_lt {α : Type} (d : α) :
    ∀ (l : List α) (k : Nat), k < l.length → l.getD k d ∈ l := by
  intro l
  induction l with
  | nil => intro k h; simp at h
  | cons a l ih =>
      intro k h
      cases k with
      | zero => simp [List.getD]
      | succ m =>
          have := ih m (by simpa using Nat.lt_of_succ_lt_succ h)
          simp [List.getD] at this ⊢
          right
          simpa [List.getD] using this

theorem getD_map_of_lt {α β : Type} (f : α → β) (d : β) (d₀ : α) :
    ∀ (l : List α) (k : Nat), k < l.length →
      (l.map f).getD k d = f (l.getD k d₀) := by
  intro l
  induction l with
  | nil => intro k h; simp at h
  | cons a l ih =>
      intro k h
      cases k with
      | zero => rfl
      | succ m =>
          have := ih m (by simpa using Nat.lt_of_succ_lt_succ h)
          simpa [List.getD] using this

/-! ### Unfolding helpers for the lane loop (all definitional) -/

theorem runLanes_cons_snd (i : Nat) (lanes : List (Option Int)) (t : Int)
    (ts : List Int) :
    (runLanes i lanes (t :: ts)).2
      = (runLanes (i + 1) (assignStep i t lanes).2 ts).2 := rfl

theorem runLanes_cons_fst_getD_zero (i : Nat) (lanes : List (Option Int))
    (t : Int) (ts : List Int) (d : Nat) :
    (runLanes i lanes (t :: ts)).1.getD 0 d = (assignStep i t lanes).1 := rfl

theorem runLanes_cons_fst_getD_succ (i : Nat) (lanes : List (Option Int))
    (t : Int) (ts : List Int) (k d : Nat) :
    (runLanes i lanes (t :: ts)).1.getD (k + 1) d
      = (runLanes (i + 1) (assignStep i t lanes).2 ts).1.getD k d := rfl

theorem assignStep_snd_length (i : Nat) (t : Int) (lanes : List (Option Int)) :
    (assignStep i t lanes).2.length = lanes.length := by
  simp [assignStep]

/-- If the first-fit scan returns lane `m`, then lane `m` passed the
availability test. -/
theorem firstFree_ok {t : Int} :
    ∀ {lanes : List (Option Int)} {m : Nat},
      firstFree t lanes = some m → laneOk t (lanes.getD m none) = true := by
  intro lanes
  induction lanes with
  | nil => intro m h; simp [firstFree] at h
  | cons l ls ih =>
      intro m h
      rw [firstFree] at h
      by_cases hk : laneOk t l
      · rw [if_pos hk] at h
        cases h
        exact hk
      · rw [if_neg hk] at h
        cases hf : firstFree t ls with
        | none => rw [hf] at h; simp at h
        | some m' =>
            rw [hf] at h
            simp at h
            subst h
            simpa [List.getD] using ih hf

/-- Characterization of one loop step in terms of the pre-state: the event at
position `k` goes to the first free lane (fallback `(i + k) % max_lanes`), and
that lane's `lane_last_time` entry is updated to the event's timestamp. -/
theorem runLanes_step_char (ts : List Int) :
    ∀ i lanes k, k < ts.length →
      (runLanes i lanes ts).1.getD k 0
          = (firstFree (ts.getD k 0) ((runLanes i lanes (ts.take k)).2)).getD
              ((i + k) % max_lanes)
        ∧ (runLanes i lanes (ts.take (k + 1))).2
          = ((runLanes i lanes (ts.take k)).2).set
              ((runLanes i lanes ts).1.getD k 0) (some (ts.getD k 0)) := by
  induction ts with
  | nil => intro i lanes k h; simp at h
  | cons t rest ih =>
      intro i lanes k hk
      cases k with
      | zero =>
          constructor
          · simp [runLanes, assignStep, List.getD_cons_zero]
          · simp [runLanes, assignStep, List.getD_cons_zero]
      | succ k' =>
          have hk' : k' < rest.length := by
            simpa using Nat.lt_of_succ_lt_succ hk
          have h := ih (i + 1) (assignStep i t lanes).2 k' hk'
          have harith : i + 1 + k' = i + (k' + 1) := by omega
          rw [harith] at h
          constructor
          · rw [runLanes_cons_fst_getD_succ, List.getD_cons_succ,
              List.take_succ_cons, runLanes_cons_snd]
            exact h.1
          · rw [List.take_succ_cons, List.take_succ_cons, runLanes_cons_snd,
              runLanes_cons_snd, runLanes_cons_fst_getD_succ,
              List.getD_cons_succ]
            exact h.2

/-- Lower-bound propagation: if some lane `l` holds a timestamp at least `u`
and all upcoming (sorted) events are at least that value, then any later event
that lands in lane `l` through the first-fit scan is at least
`window_minutes` minutes after `u`; otherwise it got there via fallback. -/
theorem laneLB (ts : List Int) :
    ∀ i lanes l u, List.Sorted (· ≤ ·) ts →
      lanes.getD l none = some u → (∀ x ∈ ts, u ≤ x) →
      ∀ k, k < ts.length → (runLanes i lanes ts).1.getD k 0 = l →
      firstFree (ts.getD k 0) ((runLanes i lanes (ts.take k)).2) = none
        ∨ window_minutes * 60 ≤ ts.getD k 0 - u := by
  induction ts with
  | nil => intro i lanes l u _ _ _ k hk; simp at hk
  | cons t rest ih =>
      intro i lanes l u hs hl hu k hk hout
      have htr : ∀ x ∈ rest, t ≤ x := (List.sorted_cons.mp hs).1
      have hsr : List.Sorted (· ≤ ·) rest := (List.sorted_cons.mp hs).2
      cases k with
      | zero =>
          cases hf : firstFree t lanes with
          | none =>
              left
              simpa [runLanes, List.getD_cons_zero] using hf
          | some m =>
              right
              rw [runLanes_cons_fst_getD_zero] at hout
              have hm : (assignStep i t lanes).1 = m := by
                simp [assignStep, hf]
              rw [hm] at hout
              subst hout
              have hOk := firstFree_ok hf
              rw [hl] at hOk
              simp only [laneOk, decide_eq_true_eq] at hOk
              simpa using hOk
      | succ k' =>
          have hk' : k' < rest.length := by
            simpa using Nat.lt_of_succ_lt_succ hk
          rw [runLanes_cons_fst_getD_succ] at hout
          rw [List.getD_cons_succ, List.take_succ_cons, runLanes_cons_snd]
          by_cases hil : (assignStep i t lanes).1 = l
          · have hlt : (assignStep i t lanes).1 < lanes.length := by
              have := getD_lt_length_of_some hl
              calc (assignStep i t lanes).1 = l := hil
                _ < lanes.length := this
            have hset : ((assignStep i t lanes).2).getD l none = some t := by
              rw [← hil]
              exact getD_set_self t lanes (assignStep i t lanes).1 hlt
            have hres := ih (i + 1) (assignStep i t lanes).2 l t hsr hset htr
              k' hk' hout
            rcases hres with hnone | hge
            · exact Or.inl hnone
            · right
              have hut : u ≤ t := hu t (by simp)
              omega
          · have hset : ((assignStep i t lanes).2).getD l none = some u := by
              rw [show (assignStep i t lanes).2
                    = lanes.set (assignStep i t lanes).1 (some t) from rfl]
              rw [getD_set_ne t lanes (assignStep i t lanes).1 l hil]
              exact hl
            have hu' : ∀ x ∈ rest, u ≤ x := fun x hx => hu x (by simp [hx])
            exact ih (i + 1) (assignStep i t lanes).2 l u hsr hset hu' k' hk' hout

/-- If two events of a sorted run land in the same lane less than
`window_minutes` apart, the later one was placed by the fallback path: at its
assignment moment no lane passed the availability test. -/
theorem runLanes_reuse_forces_fallback (ts : List Int) :
    ∀ i lanes, List.Sorted (· ≤ ·) ts → lanes.length = max_lanes →
      ∀ j k, j < k → k < ts.length →
      (runLanes i lanes ts).1.getD j 0 = (runLanes i lanes ts).1.getD k 0 →
      ts.getD k 0 - ts.getD j 0 < window_minutes * 60 →
      firstFree (ts.getD k 0) ((runLanes i lanes (ts.take k)).2) = none := by
  induction ts with
  | nil => intro i lanes _ _ j k _ hk; simp at hk
  | cons t rest ih =>
      intro i lanes hs hlen j k hjk hk heq hgap
      have htr : ∀ x ∈ rest, t ≤ x := (List.sorted_cons.mp hs).1
      have hsr : List.Sorted (· ≤ ·) rest := (List.sorted_cons.mp hs).2
      cases k with
      | zero => omega
      | succ k' =>
          have hk' : k' < rest.length := by
            simpa using Nat.lt_of_succ_lt_succ hk
          rw [List.getD_cons_succ, List.take_succ_cons, runLanes_cons_snd]
          cases j with
          | zero =>
              rw [runLanes_cons_fst_getD_zero, runLanes_cons_fst_getD_succ]
                at heq
              rw [List.getD_cons_succ, List.getD_cons_zero] at hgap
              have hlt : (assignStep i t lanes).1 < lanes.length :=
                assignStep_fst_lt hlen
              have hset : ((assignStep i t lanes).2).getD
                  ((assignStep i t lanes).1) none = some t :=
                getD_set_self t lanes (assignStep i t lanes).1 hlt
              have hres := laneLB rest (i + 1) (assignStep i t lanes).2
                ((assignStep i t lanes).1) t hsr hset htr k' hk' heq.symm
              rcases hres with hnone | hge
              · exact hnone
              · omega
          | succ j' =>
              rw [runLanes_cons_fst_getD_succ, runLanes_cons_fst_getD_succ]
                at heq
              rw [List.getD_cons_succ, List.getD_cons_succ] at hgap
              have hj' : j' < k' := by omega
              exact ih (i + 1) (assignStep i t lanes).2 hsr
                (by rw [assignStep_snd_length]; exact hlen) j' k' hj' hk'
                heq hgap

/-- Lanes produced by the loop are always `< max_lanes`. -/
theorem runLanes_fst_mem_lt (ts : List Int) :
    ∀ i lanes, lanes.length = max_lanes →
      ∀ l ∈ (runLanes i lanes ts).1, l < max_lanes := by
  induction ts with
  | nil => intro i lanes _ l hl; simp [runLanes] at hl
  | cons t rest ih =>
      intro i lanes hlen l hl
      simp only [runLanes] at hl
      rcases List.mem_cons.mp hl with rfl | hl
      · have := @assignStep_fst_lt i t lanes hlen
        omega
      · exact ih (i + 1) (assignStep i t lanes).2
          (by rw [assignStep_snd_length]; exact hlen) l hl

/-- C1: after sorting ascending by given_at, each medication event goes to the
first lane (indices 0,1,2 in order) whose last-assigned timestamp is
unassigned or at least 180 minutes before the event (with fallback
`position mod 3` when no lane qualifies), and that lane's timestamp is updated
to the event's; consequently two events less than 180 minutes apart share a
lane only via the fallback path, i.e. only when at the later event's
assignment moment every lane held a within-window timestamp
(`firstFree … = none`), in which case its lane is `position mod max_lanes`. -/
theorem lane_assignment_first_fit (ts : List Int)
    (hs : List.Sorted (· ≤ ·) ts) :
    (∀ k, k < ts.length →
        (assignLanes ts).getD k 0
            = (firstFree (ts.getD k 0) (lanesBefore ts k)).getD (k % max_lanes)
          ∧ lanesBefore ts (k + 1)
            = (lanesBefore ts k).set ((assignLanes ts).getD k 0)
                (some (ts.getD k 0)))
    ∧ ∀ j k, j < k → k < ts.length →
        (assignLanes ts).getD j 0 = (assignLanes ts).getD k 0 →
        ts.getD k 0 - ts.getD j 0 < window_minutes * 60 →
        firstFree (ts.getD k 0) (lanesBefore ts k) = none
          ∧ (assignLanes ts).getD k 0 = k % max_lanes := by
  have hlen : initLanes.length = max_lanes := by simp [initLanes]
  constructor
  · intro k hk
    have h := runLanes_step_char ts 0 initLanes k hk
    simpa [assignLanes, lanesBefore] using h
  · intro j k hjk hk heq hgap
    have hnone := runLanes_reuse_forces_fallback ts 0 initLanes hs hlen
      j k hjk hk heq hgap
    have hnone' : firstFree (ts.getD k 0) (lanesBefore ts k) = none := hnone
    refine ⟨hnone', ?_⟩
    have h := (runLanes_step_char ts 0 initLanes k hk).1
    have h' : (assignLanes ts).getD k 0
        = (firstFree (ts.getD k 0) (lanesBefore ts k)).getD (k % max_lanes) := by
      simpa [assignLanes, lanesBefore] using h
    rw [h', hnone']
    rfl

/-- Witness for C1 at the concrete sorted input `[0, 60, 120, 180]`
(four events one minute apart): events 0 and 3 share lane 0 with a 3-minute
gap, and indeed at event 3's assignment every lane was busy, so it fell back
to `3 % max_lanes`. -/
theorem lane_assignment_first_fit_witness :
    firstFree ([0, 60, 120, 180].getD 3 0) (lanesBefore [0, 60, 120, 180] 3)
        = none
      ∧ (assignLanes [0, 60, 120, 180]).getD 3 0 = 3 % max_lanes :=
  (lane_assignment_first_fit [0, 60, 120, 180] (by decide)).2 0 3
    (by decide) (by decide) (by decide) (by decide)

/-- C6: the lane-assignment step gives every medication event exactly one lane
index, and every produced index lies in `[0, max_lanes − 1]`, on both the
first-fit and the fallback path. -/
theorem lane_assignment_total_and_bounded (ts : List Int) :
    (assignLanes ts).length = ts.length
      ∧ ∀ k, k < ts.length → (assignLanes ts).getD k 0 < max_lanes := by
  refine ⟨runLanes_fst_length ts 0 initLanes, ?_⟩
  intro k hk
  have hmem : (assignLanes ts).getD k 0 ∈ assignLanes ts := by
    apply getD_mem_of_lt
    rw [assignLanes, runLanes_fst_length]
    exact hk
  exact runLanes_fst_mem_lt ts 0 initLanes (by simp [initLanes]) _ hmem

/-- Witness for C6 at `[0, 60, 120, 180]`: four lanes are assigned and the
lane of event 3 (a fallback assignment) is below `max_lanes`. -/
theorem lane_assignment_total_and_bounded_witness :
    (assignLanes [0, 60, 120, 180]).length = [0, 60, 120, 180].length
      ∧ (assignLanes [0, 60, 120, 180]).getD 3 0 < max_lanes :=
  ⟨(lane_assignment_total_and_bounded [0, 60, 120, 180]).1,
   (lane_assignment_total_and_bounded [0, 60, 120, 180]).2 3 (by decide)⟩

theorem hourLoop_eq (cur endT : Int) :
    hourLoop cur endT
      = if cur ≤ endT then cur :: hourLoop (cur + 3600) endT else [] := by
  rw [hourLoop]
  split <;> rfl

theorem hourLoop_mem_aux (x : Int) :
    ∀ (n : Nat) (cur endT : Int), (endT + 3600 - cur).toNat ≤ n →
      (x ∈ hourLoop cur endT
        ↔ cur ≤ x ∧ x ≤ endT ∧ (x - cur) % 3600 = 0) := by
  intro n
  induction n with
  | zero =>
      intro cur endT hn
      rw [hourLoop_eq, if_neg (by omega)]
      simp only [List.not_mem_nil, false_iff]
      intro hx
      omega
  | succ n ih =>
      intro cur endT hn
      rw [hourLoop_eq]
      by_cases h : cur ≤ endT
      · rw [if_pos h, List.mem_cons, ih (cur + 3600) endT (by omega)]
        omega
      · rw [if_neg h]
        simp only [List.not_mem_nil, false_iff]
        intro hx
        omega

theorem hourLoop_mem (x cur endT : Int) :
    x ∈ hourLoop cur endT
      ↔ cur ≤ x ∧ x ≤ endT ∧ (x - cur) % 3600 = 0 :=
  hourLoop_mem_aux x ((endT + 3600 - cur).toNat) cur endT le_rfl

theorem hourLoop_nodup_aux :
    ∀ (n : Nat) (cur endT : Int), (endT + 3600 - cur).toNat ≤ n →
      (hourLoop cur endT).Nodup := by
  intro n
  induction n with
  | zero =>
      intro cur endT hn
      rw [hourLoop_eq, if_neg (by omega)]
      exact List.nodup_nil
  | succ n ih =>
      intro cur endT hn
      rw [hourLoop_eq]
      by_cases h : cur ≤ endT
      · rw [if_pos h]
        refine List.nodup_cons.mpr ⟨?_, ih (cur + 3600) endT (by omega)⟩
        intro hmem
        have := (hourLoop_mem cur (cur + 3600) endT).mp hmem
        omega
      · rw [if_neg h]
        exact List.nodup_nil

theorem foldl_min_le_init : ∀ (ts : List Int) (a : Int), ts.foldl min a ≤ a := by
  intro ts
  induction ts with
  | nil => intro a; simp
  | cons t ts ih =>
      intro a
      calc (t :: ts).foldl min a = ts.foldl min (min a t) := rfl
        _ ≤ min a t := ih (min a t)
        _ ≤ a := min_le_left a t

theorem foldl_min_le_mem :
    ∀ (ts : List Int) (a x : Int), x ∈ ts → ts.foldl min a ≤ x := by
  intro ts
  induction ts with
  | nil => intro a x hx; simp at hx
  | cons t ts ih =>
      intro a x hx
      rcases List.mem_cons.mp hx with rfl | hx
      · calc (x :: ts).foldl min a = ts.foldl min (min a x) := rfl
          _ ≤ min a x := foldl_min_le_init ts (min a x)
          _ ≤ x := min_le_right a x
      · exact ih (min a t) x hx

theorem le_foldl_max_init : ∀ (ts : List Int) (a : Int), a ≤ ts.foldl max a := by
  intro ts
  induction ts with
  | nil => intro a; simp
  | cons t ts ih =>
      intro a
      calc a ≤ max a t := le_max_left a t
        _ ≤ ts.foldl max (max a t) := ih (max a t)
        _ = (t :: ts).foldl max a := rfl

theorem le_foldl_max_mem :
    ∀ (ts : List Int) (a x : Int), x ∈ ts → x ≤ ts.foldl max a := by
  intro ts
  induction ts with
  | nil => intro a x hx; simp at hx
  | cons t ts ih =>
      intro a x hx
      rcases List.mem_cons.mp hx with rfl | hx
      · calc x ≤ max a x := le_max_right a x
          _ ≤ ts.foldl max (max a x) := le_foldl_max_init ts (max a x)
          _ = (x :: ts).foldl max a := rfl
      · exact ih (max a t) x hx

theorem floorHour_le (t : Int) : floorHour t ≤ t := by
  unfold floorHour
  omega

theorem le_ceilHour (t : Int) : t ≤ ceilHour t := by
  unfold ceilHour
  omega

theorem floorHour_emod (t : Int) : (floorHour t) % 3600 = 0 := by
  unfold floorHour
  omega

theorem ceilHour_emod (t : Int) : (ceilHour t) % 3600 = 0 := by
  unfold ceilHour
  omega

/-- C2: for any pair of (not necessarily sorted) input series, the gridline
set is empty iff both series are empty; when the union is `t :: ts`, the
gridlines are exactly the hourly ticks from `floorHour` of the union minimum
to `ceilHour` of the union maximum inclusive, with no duplicates, both
endpoints included; and `ceilHour` of a timestamp already on the hour is
itself. -/
theorem gridlines_cover_hour_span (recTimes medTimes : List Int) :
    (gridTimes recTimes medTimes = [] ↔ recTimes = [] ∧ medTimes = [])
    ∧ (∀ u : Int, u % 3600 = 0 → ceilHour u = u)
    ∧ ∀ t ts, recTimes ++ medTimes = t :: ts →
        (∀ x : Int, x ∈ gridTimes recTimes medTimes ↔
            floorHour (ts.foldl min t) ≤ x
              ∧ x ≤ ceilHour (ts.foldl max t)
              ∧ (x - floorHour (ts.foldl min t)) % 3600 = 0)
        ∧ (gridTimes recTimes medTimes).Nodup
        ∧ floorHour (ts.foldl min t) ∈ gridTimes recTimes medTimes
        ∧ ceilHour (ts.foldl max t) ∈ gridTimes recTimes medTimes := by
  have hceil : ∀ u : Int, u % 3600 = 0 → ceilHour u = u := by
    intro u hu
    unfold ceilHour
    omega
  have hspan : ∀ t ts, recTimes ++ medTimes = t :: ts →
      floorHour (ts.foldl min t) ≤ ceilHour (ts.foldl max t) := by
    intro t ts _
    calc floorHour (ts.foldl min t) ≤ ts.foldl min t := floorHour_le _
      _ ≤ t := foldl_min_le_init ts t
      _ ≤ ts.foldl max t := le_foldl_max_init ts t
      _ ≤ ceilHour (ts.foldl max t) := le_ceilHour _
  have hmain : ∀ t ts, recTimes ++ medTimes = t :: ts →
      (∀ x : Int, x ∈ gridTimes recTimes medTimes ↔
          floorHour (ts.foldl min t) ≤ x
            ∧ x ≤ ceilHour (ts.foldl max t)
            ∧ (x - floorHour (ts.foldl min t)) % 3600 = 0)
      ∧ (gridTimes recTimes medTimes).Nodup
      ∧ floorHour (ts.foldl min t) ∈ gridTimes recTimes medTimes
      ∧ ceilHour (ts.foldl max t) ∈ gridTimes recTimes medTimes := by
    intro t ts h
    have hg : gridTimes recTimes medTimes
        = hourLoop (floorHour (ts.foldl min t)) (ceilHour (ts.foldl max t)) := by
      rw [gridTimes, h]
      rfl
    have hmem : ∀ x : Int, x ∈ gridTimes recTimes medTimes ↔
        floorHour (ts.foldl min t) ≤ x
          ∧ x ≤ ceilHour (ts.foldl max t)
          ∧ (x - floorHour (ts.foldl min t)) % 3600 = 0 := by
      intro x
      rw [hg]
      exact hourLoop_mem x _ _
    refine ⟨hmem, ?_, ?_, ?_⟩
    · rw [hg]
      exact hourLoop_nodup_aux _ _ _ le_rfl
    · exact (hmem _).mpr ⟨le_rfl, hspan t ts h, by omega⟩
    · refine (hmem _).mpr ⟨hspan t ts h, le_rfl, ?_⟩
      have h1 := floorHour_emod (ts.foldl min t)
      have h2 := ceilHour_emod (ts.foldl max t)
      omega
  refine ⟨?_, hceil, hmain⟩
  constructor
  · intro hnil
    cases h : recTimes ++ medTimes with
    | nil => exact List.append_eq_nil.mp h
    | cons t ts =>
        exfalso
        have := (hmain t ts h).2.2.1
        rw [hnil] at this
        simp at this
  · rintro ⟨rfl, rfl⟩
    rfl

/-- Witness for C2 at `recTimes = [3700]`, `medTimes = []`: the gridlines run
from `floorHour 3700 = 3600` to `ceilHour 3700 = 7200`, and the tick 7200 is
a member. -/
theorem gridlines_cover_hour_span_witness :
    (7200 : Int) ∈ gridTimes [3700] [] := by
  have h := ((gridlines_cover_hour_span [3700] []).2.2 3700 [] rfl).1 7200
  exact h.mpr (by decide)

example : agoString 7200 0 = "2h ago" := by decide

example : agoString 7260 0 = "2h01mins ago" := by decide

example : agoString 300 0 = "5mins ago" := by decide

example : agoString 30 0 = "just now" := by decide

example : agoString (-60) 0 = "in future" := by decide

/-- C3: each reading at or above `TEMP_CRITICAL` is rendered as a size-10
marker in the alert color and each reading below as a size-6 marker in the
normal color; the classification is per point, exhaustive and exclusive, and
the readings stay a single connected `lines+markers` trace in input order. -/
theorem per_point_marker_styling (ms : List TemperatureReading)
    (meds : List MedicationEvent) (clock : Nat → Int) (height : Int)
    (hne : ms ≠ []) :
    ∃ tr : TempTrace,
      (build_temperature_figure ms meds clock height).tempTrace = some tr
      ∧ tr.xs = ms.map (·.recorded_at)
      ∧ tr.ys = ms.map (·.temperature_c)
      ∧ tr.mode = "lines+markers"
      ∧ tr.markerSizes.length = ms.length
      ∧ ∀ k, k < ms.length →
          ((tr.markerSizes.getD k 0 = 10
              ∧ tr.markerColors.getD k "" = "#d32f2f")
            ↔ TEMP_CRITICAL ≤ (ms.getD k default).temperature_c)
          ∧ ((tr.markerSizes.getD k 0 = 6
              ∧ tr.markerColors.getD k "" = "#1976d2")
            ↔ (ms.getD k default).temperature_c < TEMP_CRITICAL) := by
  have hne' : ms.isEmpty = false := by
    cases ms with
    | nil => exact absurd rfl hne
    | cons a l => rfl
  refine ⟨⟨ms.map (·.recorded_at), ms.map (·.temperature_c), "lines+markers",
    "Temperature (°C)", "#1976d2",
    ms.map (fun r => if TEMP_CRITICAL ≤ r.temperature_c then 10 else 6),
    ms.map (fun r => if TEMP_CRITICAL ≤ r.temperature_c then "#d32f2f"
      else "#1976d2")⟩, ?_, rfl, rfl, rfl, by simp, ?_⟩
  · simp [build_temperature_figure, hne']
  · intro k hk
    show ((ms.map (fun r => if TEMP_CRITICAL ≤ r.temperature_c then 10
        else 6)).getD k 0 = 10
        ∧ (ms.map (fun r => if TEMP_CRITICAL ≤ r.temperature_c then "#d32f2f"
            else "#1976d2")).getD k "" = "#d32f2f" ↔ _) ∧ _
    rw [getD_map_of_lt _ _ default ms k hk,
      getD_map_of_lt _ _ default ms k hk]
    by_cases hc : TEMP_CRITICAL ≤ (ms.getD k default).temperature_c
    · have hnl := not_lt.mpr hc
      simp [hc, hnl]
    · have hlt := lt_of_not_le hc
      simp [hc, hlt]

/-- Witness for C3: at the two-reading input of the repository's own test
fixture (37.2 °C and 39.9 °C), the builder emits a temperature trace whose
second marker is alert-styled (size 10) and first is normal (size 6). -/
theorem per_point_marker_styling_witness :
    ∃ tr : TempTrace,
      (build_temperature_figure
          [⟨1, 36000, 37.2, none⟩, ⟨2, 43200, 39.9, some "high"⟩]
          [] (fun _ => 0) 500).tempTrace = some tr
      ∧ (tr.markerSizes.getD 0 0 = 6 ∧ tr.markerColors.getD 0 "" = "#1976d2")
      ∧ (tr.markerSizes.getD 1 0 = 10
          ∧ tr.markerColors.getD 1 "" = "#d32f2f") := by
  obtain ⟨tr, htr, _, _, _, _, hcls⟩ := per_point_marker_styling
    [⟨1, 36000, 37.2, none⟩, ⟨2, 43200, 39.9, some "high"⟩]
    [] (fun _ => 0) 500 (by simp)
  refine ⟨tr, htr, ?_, ?_⟩
  · exact ((hcls 0 (by norm_num)).2).mpr (by norm_num [TEMP_CRITICAL])
  · exact ((hcls 1 (by norm_num)).1).mpr (by norm_num [TEMP_CRITICAL])

/-- C4: the y-axis range is `[y_min − 0.5, y_max + headroom]` with fixed
`y_min = 36`, `y_max = 41`; headroom is `0.8 + 0.35 * max_lane_used` when
medications are present and `0.8` when not; the lower bound is always 35.5;
and the headroom formula is monotone non-decreasing in `max_lane_used`. -/
theorem yaxis_range_fixed_bounds (ms : List TemperatureReading)
    (meds : List MedicationEvent) (clock : Nat → Int) (height : Int) :
    (build_temperature_figure ms meds clock height).yRange
        = (36 - 0.5,
            41 + (if meds = [] then (0.8 : ℚ)
              else headroomOf (max_lane_used meds)))
    ∧ (build_temperature_figure ms meds clock height).yRange.1 = 35.5
    ∧ ∀ a b : Nat, a ≤ b → headroomOf a ≤ headroomOf b := by
  refine ⟨?_, ?_, ?_⟩
  · cases meds <;> rfl
  · show (36 : ℚ) - 0.5 = 35.5
    norm_num
  · intro a b hab
    unfold headroomOf
    have hc : (a : ℚ) ≤ (b : ℚ) := Nat.cast_le.mpr hab
    linarith

/-- Witness for C4: instantiating at a concrete input and at lanes 1 ≤ 2. -/
theorem yaxis_range_fixed_bounds_witness :
    (build_temperature_figure [] [] (fun _ => 0) 700).yRange.1 = 35.5
      ∧ headroomOf 1 ≤ headroomOf 2 :=
  ⟨(yaxis_range_fixed_bounds [] [] (fun _ => 0) 700).2.1,
   (yaxis_range_fixed_bounds [] [] (fun _ => 0) 700).2.2 1 2 (by norm_num)⟩

/-- C5: the builder is a total function — on every input, including both
sequences empty, it produces a figure containing the dashed threshold line at
`y = TEMP_CRITICAL` and its y-axis label `"39.8°C"`; on fully empty input the
figure degrades to exactly the threshold line/label and the default axis
bounds (no trace, no shapes, no other labels, no hover layer). -/
theorem threshold_always_present (ms : List TemperatureReading)
    (meds : List MedicationEvent) (clock : Nat → Int) (height : Int) :
    ((build_temperature_figure ms meds clock height).hline_y = TEMP_CRITICAL
      ∧ (build_temperature_figure ms meds clock height).hline_dash = "dash"
      ∧ (build_temperature_figure ms meds clock height).hline_color
          = "#d32f2f"
      ∧ (build_temperature_figure ms meds clock height).thresholdAnn
          = thresholdLabel
      ∧ thresholdLabel.text = "39.8°C"
      ∧ thresholdLabel.y = TEMP_CRITICAL)
    ∧ ((build_temperature_figure [] [] clock height).tempTrace = none
      ∧ (build_temperature_figure [] [] clock height).shapes = []
      ∧ (build_temperature_figure [] [] clock height).anns = []
      ∧ (build_temperature_figure [] [] clock height).hover = none
      ∧ (build_temperature_figure [] [] clock height).yRange
          = (35.5, 41.8)) := by
  refine ⟨⟨rfl, rfl, rfl, rfl, rfl, rfl⟩, rfl, rfl, rfl, rfl, ?_⟩
  show ((36 : ℚ) - 0.5, (41 : ℚ) + 0.8) = (35.5, 41.8)
  norm_num

/-! ## Wall-clock reads (C8)

charts.py line 152 executes `now_ts = pd.Timestamp.now()` inside the
per-medication loop, so the clock is read once per medication event, not once
per build: the event at sorted position k uses reading `clock k`. -/

theorem enumFrom_map_snd {α β : Type} (f : α → β) :
    ∀ (l : List α) (n : Nat),
      (l.enumFrom n).map (fun e => f e.2) = l.map f := by
  intro l
  induction l with
  | nil => intro n; rfl
  | cons a l ih => intro n; simp [List.enumFrom, ih]

/-- C8 (amended): the relative-time hover strings are computed against one
clock reading per medication event — the event at sorted position k uses the
k-th reading — rather than a single per-build reading; consequently the
hover strings all reflect one common value exactly when the clock does not
advance between the per-event reads (e.g. a constant clock). -/
theorem now_read_per_event (ms : List TemperatureReading)
    (meds : List MedicationEvent) (clock : Nat → Int) (height : Int) :
    ((build_temperature_figure ms meds clock height).hover.map
        (fun hv => hv.customdata))
      = (if meds = [] then none
          else some ((sortMeds meds).enum.map
            (fun e => agoString (clock e.1) e.2.given_at)))
    ∧ ∀ c : Int,
        ((build_temperature_figure ms meds (fun _ => c) height).hover.map
            (fun hv => hv.customdata))
          = (if meds = [] then none
              else some ((sortMeds meds).map
                (fun m => agoString c m.given_at))) := by
  constructor
  · cases meds <;> rfl
  · intro c
    cases meds with
    | nil => rfl
    | cons m l =>
        have h := enumFrom_map_snd
          (fun x : MedicationEvent => agoString c x.given_at)
          (sortMeds (m :: l)) 0
        calc ((build_temperature_figure ms (m :: l) (fun _ => c) height).hover.map
              (fun hv => hv.customdata))
            = some (((sortMeds (m :: l)).enumFrom 0).map
                (fun e => agoString c e.2.given_at)) := rfl
          _ = some ((sortMeds (m :: l)).map
                (fun x => agoString c x.given_at)) := by rw [h]
          _ = _ := by rfl

/-- Counterexample to C8 as stated: with a clock that advances between
per-event reads, the two hover strings of two same-instant events differ
("just now" vs "2h ago"), which is impossible if a single clock reading were
used for every hover string. -/
theorem now_single_read_counterexample :
    ¬ ∃ now : Int,
      ((build_temperature_figure [] medsPairEx clkAdv 700).hover.map
          (fun hv => hv.customdata))
        = some ((sortMeds medsPairEx).map
            (fun m => agoString now m.given_at)) := by
  rintro ⟨now, h⟩
  have hL : ((build_temperature_figure [] medsPairEx clkAdv 700).hover.map
      (fun hv => hv.customdata)) = some ["just now", "2h ago"] := by decide
  rw [hL] at h
  have hsort : sortMeds medsPairEx = medsPairEx := by decide
  rw [hsort] at h
  simp only [medsPairEx, List.map_cons, List.map_nil] at h
  rw [Option.some.injEq, List.cons.injEq, List.cons.injEq] at h
  obtain ⟨h1, h2, -⟩ := h
  exact absurd (h1.trans h2.symm) (by decide)

theorem parseColumn_error_of_bad (parse : String → Option Int) :
    ∀ ss : List String, (∃ s ∈ ss, parse s = none) →
      ∃ raw, parseColumn parse ss = .error (.parseError raw)
        ∧ parse raw = none := by
  intro ss
  induction ss with
  | nil => rintro ⟨s, hs, -⟩; simp at hs
  | cons s ss ih =>
      rintro ⟨x, hx, hpx⟩
      cases hpz : parse s with
      | none => exact ⟨s, by simp [parseColumn, hpz], hpz⟩
      | some t =>
          rcases List.mem_cons.mp hx with rfl | hx'
          · rw [hpz] at hpx
            cases hpx
          · obtain ⟨raw, hcol, hraw⟩ := ih ⟨x, hx', hpx⟩
            exact ⟨raw, by simp [parseColumn, hpz, hcol], hraw⟩

theorem parseColumn_error_inv (parse : String → Option Int) :
    ∀ (ss : List String) (e : BuildError), parseColumn parse ss = .error e →
      ∃ raw, e = .parseError raw ∧ parse raw = none ∧ raw ∈ ss := by
  intro ss
  induction ss with
  | nil => intro e h; simp [parseColumn] at h
  | cons s ss ih =>
      intro e h
      cases hpz : parse s with
      | none =>
          rw [parseColumn, hpz] at h
          cases h
          exact ⟨s, rfl, hpz, by simp⟩
      | some t =>
          rw [parseColumn, hpz] at h
          cases hc : parseColumn parse ss with
          | error e' =>
              rw [hc] at h
              cases h
              obtain ⟨raw, rfl, hraw, hmem⟩ := ih _ hc
              exact ⟨raw, rfl, hraw, by simp [hmem]⟩
          | ok ts =>
              rw [hc] at h
              cases h

theorem parseColumn_ok_all (parse : String → Option Int) :
    ∀ (ss : List String) (ts : List Int), parseColumn parse ss = .ok ts →
      ts.length = ss.length ∧ ∀ s ∈ ss, ∃ t, parse s = some t := by
  intro ss
  induction ss with
  | nil =>
      intro ts h
      rw [parseColumn] at h
      cases h
      simp
  | cons s ss ih =>
      intro ts h
      cases hpz : parse s with
      | none =>
          rw [parseColumn, hpz] at h
          cases h
      | some t =>
          rw [parseColumn, hpz] at h
          cases hc : parseColumn parse ss with
          | error e =>
              rw [hc] at h
              cases h
          | ok ts' =>
              rw [hc] at h
              cases h
              obtain ⟨hlen, hall⟩ := ih ts' hc
              refine ⟨by simp [hlen], ?_⟩
              intro x hx
              rcases List.mem_cons.mp hx with rfl | hx'
              · exact ⟨t, hpz⟩
              · exact hall x hx'

/-- C9 (amended): whenever any record carries an unparseable timestamp, the
builder fails with a parse error naming an unparseable raw value — it never
silently drops or coerces the record — and on success every record was
parsed and every measurement row appears in the temperature trace; but the
error is pandas' generic parse failure carrying the raw string only, not a
`MalformedTimestampError` identifying the record id (no such error type
exists in the repository). -/
theorem parse_failure_surfaced (parse : String → Option Int)
    (rms : List RawMeasurement) (rmeds : List RawMedication)
    (clock : Nat → Int) (height : Int) :
    (((∃ r ∈ rms, parse r.recorded_at = none)
        ∨ ∃ r ∈ rmeds, parse r.given_at = none) →
      ∃ raw, build_raw parse rms rmeds clock height
          = Except.error (BuildError.parseError raw) ∧ parse raw = none)
    ∧ ∀ spec, build_raw parse rms rmeds clock height = Except.ok spec →
        (∀ r ∈ rms, ∃ t, parse r.recorded_at = some t)
        ∧ (∀ r ∈ rmeds, ∃ t, parse r.given_at = some t)
        ∧ (rms ≠ [] →
            spec.tempTrace.map (fun tr => tr.xs.length)
              = some rms.length) := by
  constructor
  · intro hbad
    cases hc1 : parseColumn parse (rms.map (·.recorded_at)) with
    | error e =>
        obtain ⟨raw, rfl, hraw, -⟩ :=
          parseColumn_error_inv parse (rms.map (·.recorded_at)) e hc1
        exact ⟨raw, by rw [build_raw, hc1], hraw⟩
    | ok mts =>
        rcases hbad with ⟨r, hr, hpr⟩ | ⟨r, hr, hpr⟩
        · obtain ⟨-, hall⟩ :=
            parseColumn_ok_all parse (rms.map (·.recorded_at)) mts hc1
          obtain ⟨t, ht⟩ := hall r.recorded_at (List.mem_map_of_mem _ hr)
          rw [hpr] at ht
          cases ht
        · obtain ⟨raw, hcol, hraw⟩ := parseColumn_error_of_bad parse
            (rmeds.map (·.given_at)) ⟨r.given_at, List.mem_map_of_mem _ hr, hpr⟩
          exact ⟨raw, by rw [build_raw, hc1, hcol], hraw⟩
  · intro spec hok
    cases hc1 : parseColumn parse (rms.map (·.recorded_at)) with
    | error e => rw [build_raw, hc1] at hok; cases hok
    | ok mts =>
        cases hc2 : parseColumn parse (rmeds.map (·.given_at)) with
        | error e => rw [build_raw, hc1, hc2] at hok; cases hok
        | ok gts =>
            rw [build_raw, hc1, hc2] at hok
            cases hok
            obtain ⟨hlen1, hall1⟩ :=
              parseColumn_ok_all parse (rms.map (·.recorded_at)) mts hc1
            obtain ⟨hlen2, hall2⟩ :=
              parseColumn_ok_all parse (rmeds.map (·.given_at)) gts hc2
            refine ⟨?_, ?_, ?_⟩
            · intro r hr
              exact hall1 r.recorded_at (List.mem_map_of_mem _ hr)
            · intro r hr
              exact hall2 r.given_at (List.mem_map_of_mem _ hr)
            · intro hne
              set msP : List TemperatureReading := (rms.zip mts).map (fun p =>
                ⟨p.1.id, p.2, p.1.temperature_c, p.1.notes⟩) with hmsP
              have hzlen : msP.length = rms.length := by
                simp [hmsP, List.length_zip, hlen1]
              have hnemp : msP.isEmpty = false := by
                cases hml : msP with
                | nil =>
                    exfalso
                    rw [hml] at hzlen
                    cases rms with
                    | nil => exact absurd rfl hne
                    | cons a l => simp at hzlen
                | cons a l => rfl
              simp [build_temperature_figure, hnemp, hzlen]

/-- Witness for C9 (amended), at a concrete unparseable row: the builder
fails with a parse error naming the raw value `"garbage"`. -/
theorem parse_failure_surfaced_witness :
    ∃ raw, build_raw (fun _ => none) [⟨7, "garbage", 37, none⟩] []
        (fun _ => 0) 700
        = Except.error (BuildError.parseError raw)
      ∧ (fun _ => (none : Option Int)) raw = none :=
  (parse_failure_surfaced (fun _ => none) [⟨7, "garbage", 37, none⟩] []
    (fun _ => 0) 700).1
    (Or.inl ⟨⟨7, "garbage", 37, none⟩, by simp, rfl⟩)

/-- Counterexample to C9 as stated: no function can recover the offending
record's id from the error the builder produces — two inputs differing only
in the record id yield the identical error, so the failure does not identify
the record id. -/
theorem parse_error_lacks_id_counterexample :
    ¬ ∃ f : BuildError → Int,
      ∀ i : Int, ∀ e, build_raw (fun _ => none) [⟨i, "garbage", 37, none⟩] []
          (fun _ => 0) 700 = Except.error e → f e = i := by
  rintro ⟨f, hf⟩
  have h7 := hf 7 (BuildError.parseError "garbage") rfl
  have h8 := hf 8 (BuildError.parseError "garbage") rfl
  exact absurd (h7.symm.trans h8) (by decide)

/-! ## The two duplicate builders (C10) -/

/-- C10 (amended): the two chart-builder duplicates agree on every modelled
component of the chart specification — traces, shapes, labels, hover layer,
threshold line and axis ranges — except for the three string literals in
which the app.py copy encodes the degree sign as the two characters `Â°`:
the temperature trace name, the y-axis title, and the threshold label
text. -/
theorem duplicate_builders_agree_up_to_degree_sign
    (ms : List TemperatureReading) (meds : List MedicationEvent)
    (clock : Nat → Int) (height : Int) :
    ((app_build_temperature_figure ms meds clock height).tempTrace
        = (build_temperature_figure ms meds clock height).tempTrace.map
            (fun tr => { tr with name := "Temperature (Â°C)" }))
    ∧ (app_build_temperature_figure ms meds clock height).shapes
        = (build_temperature_figure ms meds clock height).shapes
    ∧ (app_build_temperature_figure ms meds clock height).anns
        = (build_temperature_figure ms meds clock height).anns
    ∧ (app_build_temperature_figure ms meds clock height).thresholdAnn
        = thresholdLabelApp
    ∧ (build_temperature_figure ms meds clock height).thresholdAnn
        = thresholdLabel
    ∧ (app_build_temperature_figure ms meds clock height).hover
        = (build_temperature_figure ms meds clock height).hover
    ∧ (app_build_temperature_figure ms meds clock height).hline_y
        = (build_temperature_figure ms meds clock height).hline_y
    ∧ (app_build_temperature_figure ms meds clock height).hline_dash
        = (build_temperature_figure ms meds clock height).hline_dash
    ∧ (app_build_temperature_figure ms meds clock height).hline_color
        = (build_temperature_figure ms meds clock height).hline_color
    ∧ (app_build_temperature_figure ms meds clock height).xaxis_title
        = (build_temperature_figure ms meds clock height).xaxis_title
    ∧ (app_build_temperature_figure ms meds clock height).yaxis_title
        = "Temperature (Â°C)"
    ∧ (build_temperature_figure ms meds clock height).yaxis_title
        = "Temperature (°C)"
    ∧ (app_build_temperature_figure ms meds clock height).height
        = (build_temperature_figure ms meds clock height).height
    ∧ (app_build_temperature_figure ms meds clock height).yRange
        = (build_temperature_figure ms meds clock height).yRange := by
  refine ⟨?_, rfl, rfl, rfl, rfl, rfl, rfl, rfl, rfl, rfl, rfl, rfl, rfl, rfl⟩
  cases ms <;> rfl

/-- Counterexample to C10 as stated: already on empty input the two builders
produce different chart specifications — the y-axis titles differ
(`"Temperature (Â°C)"` in app.py vs `"Temperature (°C)"` in charts.py). -/
theorem duplicate_builders_differ_counterexample :
    (app_build_temperature_figure [] [] (fun _ => 0) 700).yaxis_title
      ≠ (build_temperature_figure [] [] (fun _ => 0) 700).yaxis_title := by
  decide

end FeverTracker

